import Mathlib

/-
  Shallow embedding of src/data_logger.py (ClearCreekSci/ccs_data_logger).

  The repository is a single Python file.  Machine-level details that the
  claims do not touch (actual wall-clock reads, the XML configuration
  parser, dynamic module loading) are abstracted as parameters: every call
  that reads the clock takes the already-formatted timestamp string as an
  argument, the get_current_values() outcome of a sensor is passed in as an
  Except value, and the filesystem is a map from path strings to file
  contents.  Everything else is translated statement by statement from the
  Python source.
-/

namespace CcsDataLogger

/-- COLLECT_SUFFIX constant from data_logger.py line 40. -/
def COLLECT_SUFFIX : String := "_ccs_data_logger.csv"

/-- MAX_REPORTED_ERRORS constant (line 56). -/
def MAX_REPORTED_ERRORS : Nat := 20

/-- MAX_REPORTED_INFO_MSGS constant (line 57). -/
def MAX_REPORTED_INFO_MSGS : Nat := 20

/-- TOO_MANY_ERRORS sentinel text (line 58). -/
def TOO_MANY_ERRORS : String := "Too many errors to report..."

/-- TOO_MANY_INFO_MSGS sentinel text (line 59). -/
def TOO_MANY_INFO_MSGS : String := "Too many non-error messages to report..."

/-- PM_PISUGAR2 constant (line 43). -/
def PM_PISUGAR2 : String := "pisugar2"

/-- State of the log sink: the two global counters g_info_count and
g_error_count, together with the successive chunks passed to fd.write on
the log file (in order).  A chunk is one write call, not necessarily one
line: the sentinel strings are written without a trailing newline. -/
structure LogSink where
  info_count : Nat
  error_count : Nat
  chunks : List String
deriving Repr, DecidableEq

/-- The global counters start at zero and the log file starts empty. -/
def init_sink : LogSink := { info_count := 0, error_count := 0, chunks := [] }

/-- Embedding of logmsg (lines 68 to 85), assuming g_config.log_path is
set (otherwise the function does nothing at all).  ts is the formatted
timestamp prefix produced by strftime, passed in as a parameter.  level 0
is informational, anything else is an error, exactly as in the source. -/
def logmsg (ts tag msg : String) (level : Nat) (sink : LogSink) : LogSink :=
  if (level = 0 ∧ sink.info_count ≤ MAX_REPORTED_INFO_MSGS) ∨ sink.error_count ≤ MAX_REPORTED_ERRORS then
    let sink1 := { sink with chunks := sink.chunks ++ [ts ++ "[" ++ tag ++ "] " ++ msg ++ "\n"] }
    let sink2 :=
      if level ≠ 0 ∧ sink.error_count = MAX_REPORTED_ERRORS then
        { sink1 with chunks := sink1.chunks ++ [TOO_MANY_ERRORS] }
      else sink1
    let sink3 :=
      if level = 0 ∧ sink.info_count = MAX_REPORTED_INFO_MSGS then
        { sink2 with chunks := sink2.chunks ++ [TOO_MANY_INFO_MSGS] }
      else sink2
    if level = 0 then { sink3 with info_count := sink3.info_count + 1 }
    else { sink3 with error_count := sink3.error_count + 1 }
  else sink

/-- Iterate logmsg n times with the same timestamp, tag, message and level. -/
def logmsg_iter (ts tag msg : String) (level : Nat) : Nat → LogSink → LogSink
  | 0, sink => sink
  | n + 1, sink => logmsg ts tag msg level (logmsg_iter ts tag msg level n sink)

/-- SensorSettings objects (lines 87 to 97).  Python integers are embedded
as Int; path None becomes Option.none.  The opaque config blob is not
consumed by any claimed behavior and is omitted. -/
structure SensorSettings where
  name : String
  ticks : Int
  period : Int
  rollover_max : Int
  rollover_count : Int
  path : Option String
deriving Repr, DecidableEq

/-- A SensorSettings object as produced by SensorSettings.__init__ followed
by LoggerSettings.read setting name, period and rollover_max from the
configuration file: ticks, rollover_count start at 0 and path at None. -/
def init_settings (nm : String) (p rmax : Int) : SensorSettings :=
  { name := nm, ticks := 0, period := p, rollover_max := rmax,
    rollover_count := 0, path := none }

/-- The filesystem under the data directory: a map from path to file
content; none means the file does not exist. -/
abbrev FS : Type := String → Option String

/-- The empty filesystem. -/
def emptyFS : FS := fun _ => none

/-- Store content c at path p. -/
def fs_write (fs : FS) (p : String) (c : String) : FS :=
  fun q => if q = p then some c else fs q

/-- Embedding of CcsLogger.get_collect_file_path (lines 216 to 220).
path_ts is the string produced by strftime on the current UTC time with
format %Y%m%d_%I%M%S, i.e. second precision; os.path.join is modelled as
inserting a single slash.  Note that the sensor is not a parameter: the
source derives the name from the timestamp and the fixed suffix only. -/
def get_collect_file_path (csv_dir : String) (path_ts : String) : String :=
  csv_dir ++ "/" ++ (path_ts ++ COLLECT_SUFFIX)

/-- Embedding of the header loop in CcsLogger.get_header (lines 209 to
213): s starts as the timestamp column title and gains a comma and str of
x[0] for every element x of the dataset.  Indexing an empty tuple raises
IndexError in Python, which is the none outcome here. -/
def get_header_go : String → List (List String) → Option String
  | s, [] => some s
  | s, x :: rest =>
    match x.head? with
    | none => none
    | some lab => get_header_go (s ++ ("," ++ lab)) rest

/-- Embedding of CcsLogger.get_header (lines 209 to 213). -/
def get_header (dataset : List (List String)) : Option String :=
  get_header_go "Timestamp (UTC)" dataset

/-- Embedding of the row-building loop in CcsLogger.collect (lines 204 to
206): starting from the formatted row timestamp, append a comma and
str of x[1] for exactly those elements x whose length is 2. -/
def data_row : String → List (List String) → String
  | s, [] => s
  | s, x :: rest => data_row (if x.length = 2 then s ++ ("," ++ x.getD 1 "") else s) rest

/-- Exceptions that can escape CcsLogger.collect. -/
inductive PyError where
  | sampleError (msg : String)
  | indexError
deriving Repr, DecidableEq

/-- Embedding of CcsLogger.collect (lines 187 to 207).

Step by step against the source:
line 188  rollover_count += 1  (before anything else);
line 190  rotate when path is None or the incremented rollover_count has
          reached rollover_max, resetting rollover_count to 0 and taking a
          fresh path from get_collect_file_path (path_ts is the timestamp
          strftime produces inside that call);
line 193  row_ts is the strftime of the second clock read, format
          %Y%m%d %I:%M:%S;
line 196  open for append creates the file when absent (content "");
line 197  header_written is false exactly when the size is 0;
line 199  sensor.get_current_values() may raise: its outcome is the sample
          argument, and when it raises, the exception propagates with the
          settings already mutated and the file already created by open;
line 201  the header is computed and written before the data row; a
          malformed element makes get_header raise IndexError;
line 207  the data row plus newline is appended.

The function returns the mutated settings and filesystem together with
either unit or the escaped exception. -/
def collect (csv_dir path_ts row_ts : String)
    (sample : Except String (List (List String)))
    (ss : SensorSettings) (fs : FS) :
    (SensorSettings × FS) × Except PyError Unit :=
  let ss1 := { ss with rollover_count := ss.rollover_count + 1 }
  let ss2 :=
    if ss1.path = none ∨ ss1.rollover_count ≥ ss1.rollover_max then
      { ss1 with path := some (get_collect_file_path csv_dir path_ts),
                 rollover_count := 0 }
    else ss1
  let p := ss2.path.getD ""
  let content := (fs p).getD ""
  match sample with
  | Except.error e => ((ss2, fs_write fs p content), Except.error (PyError.sampleError e))
  | Except.ok data =>
    if content = "" then
      match get_header data with
      | none => ((ss2, fs_write fs p content), Except.error PyError.indexError)
      | some header =>
        let s := data_row row_ts data
        ((ss2, fs_write fs p (content ++ ((header ++ "\n") ++ (s ++ "\n")))), Except.ok ())
    else
      let s := data_row row_ts data
      ((ss2, fs_write fs p (content ++ (s ++ "\n"))), Except.ok ())

/-- One loaded sensor module, as seen by the RUN loop of run (lines 284 to
297).  sensor_name is the attribute set at load time; label stands for the
result of get_label(), used only in the missing-settings log message;
path_ts and row_ts are the strftime results of the two clock reads made
during the collect call of this sensor on this tick; sample is the outcome of
get_current_values() on this tick. -/
structure Sensor where
  sensor_name : String
  label : String
  path_ts : String
  row_ts : String
  sample : Except String (List (List String))
deriving Repr

/-- A log event: message text and level (0 informational, 1 error). -/
abbrev LogEvent : Type := String × Nat

/-- Mutable state threaded through the RUN loop: the settings list held by
g_config, the filesystem, the first_time flag and the log events emitted
by the loop body. -/
structure TickState where
  sensor_settings : List SensorSettings
  fs : FS
  first_time : Bool
  events : List LogEvent

/-- Embedding of CcsLogger.get_sensor_settings (lines 147 to 154): linear
scan of g_config.sensor_settings, first match by name wins. -/
def get_sensor_settings (l : List SensorSettings) (nm : String) : Option SensorSettings :=
  l.find? (fun ss => ss.name = nm)

/-- Python mutates the found settings object in place; in the embedding the
first list entry with the same name is replaced by the updated record. -/
def set_sensor_settings : List SensorSettings → SensorSettings → List SensorSettings
  | [], _ => []
  | ss :: rest, ss2 =>
    if ss.name = ss2.name then ss2 :: rest else ss :: set_sensor_settings rest ss2

/-- Embedding of the body of one tick of the RUN loop (lines 285 to 295),
i.e. one pass of the for loop over data_logger.sensors.  For each sensor:
look up its settings; when found, collect when ticks has reached period or
first_time is still set, then zero ticks (only after a collect that did
not raise), increment ticks and clear first_time; when absent, log the
missing-settings error and move on.  There is no try block anywhere in
run, so an exception raised inside collect aborts the whole loop at once:
the remaining statements of the body and all remaining sensors of the
tick are skipped and the error propagates to the caller. -/
def tick_go (csv_dir : String) : List Sensor → TickState → TickState × Except PyError Unit
  | [], st => (st, Except.ok ())
  | sm :: rest, st =>
    match get_sensor_settings st.sensor_settings sm.sensor_name with
    | some ss =>
      if ss.ticks ≥ ss.period ∨ st.first_time = true then
        match collect csv_dir sm.path_ts sm.row_ts sm.sample ss st.fs with
        | ((ss2, fs2), Except.ok _) =>
          let ss3 := { ss2 with ticks := 0 }
          let ss4 := { ss3 with ticks := ss3.ticks + 1 }
          tick_go csv_dir rest
            { st with sensor_settings := set_sensor_settings st.sensor_settings ss4,
                      fs := fs2, first_time := false }
        | ((ss2, fs2), Except.error e) =>
          ({ st with sensor_settings := set_sensor_settings st.sensor_settings ss2,
                     fs := fs2 }, Except.error e)
      else
        let ss2 := { ss with ticks := ss.ticks + 1 }
        tick_go csv_dir rest
          { st with sensor_settings := set_sensor_settings st.sensor_settings ss2,
                    first_time := false }
    | none =>
      tick_go csv_dir rest
        { st with events := st.events ++
            [("Sensor module is missing sensor-config in settings file: " ++ sm.label, 1)] }

/-- Successive ticks of the RUN loop (line 284): ticks run in order and an
exception escaping one tick ends the run; no later tick is executed. -/
def run_ticks (csv_dir : String) : List (List Sensor) → TickState → TickState × Except PyError Unit
  | [], st => (st, Except.ok ())
  | t :: rest, st =>
    match tick_go csv_dir t st with
    | (st2, Except.ok _) => run_ticks csv_dir rest st2
    | (st2, Except.error e) => (st2, Except.error e)

/-- The slice of LoggerSettings consumed by the power-manager startup path
of run (lines 255 to 271). -/
structure GConfig where
  power_manager : Option String
  power_period : Option Int
deriving Repr, DecidableEq

/-- Outcome of probing the PiSugar device inside get_pisugar2_manager:
either the battery query succeeds, or one of the two exception types
handled at lines 236 and 239 is raised. -/
inductive ProbeOutcome where
  | ok (battery : Int)
  | connectionRefused
  | sugarDisconnected
deriving Repr, DecidableEq

/-- Embedding of get_pisugar2_manager (lines 222 to 246): returns whether
a usable power manager object was obtained, together with the log events
emitted, in order.  On a successful probe the battery level is logged as
informational; on either exception the manager is discarded and one error
is logged; independently, a missing power period in the configuration
logs one further error. -/
def get_pisugar2_manager (cfg : GConfig) (probe : ProbeOutcome) : Bool × List LogEvent :=
  let r :=
    match probe with
    | ProbeOutcome.ok bat => (true, [(("Battery: " ++ toString bat ++ " %" : String), (0 : Nat))])
    | ProbeOutcome.connectionRefused => (false, [(("PiSugar configured, but not found" : String), (1 : Nat))])
    | ProbeOutcome.sugarDisconnected => (false, [(("PiSugar configured, but not available" : String), (1 : Nat))])
  if cfg.power_period = none then
    (r.1, r.2 ++ [(("PiSugar power manager is missing \"period\" element in configuration file" : String), (1 : Nat))])
  else r

/-- How a call to run leaves the process, looking only at the startup
portion before the collection machinery (lines 255 to 271).  browse_exit:
run returned at line 270 before constructing CcsLogger, so no sensor was
collected and the tick loop was never entered, with g_done set True.
power_cycle: a power manager was obtained; run collects every sensor once
and returns with g_done still False.  tick_loop: no power manager is
configured and run enters the infinite while loop.  name_error: an unknown
power manager name reaches line 263, which references an undefined
variable and raises NameError. -/
inductive RunResult where
  | browse_exit (events : List LogEvent)
  | power_cycle (events : List LogEvent)
  | tick_loop
  | name_error
deriving Repr, DecidableEq

/-- Embedding of the startup portion of run (lines 255 to 271). -/
def run_power_phase (cfg : GConfig) (probe : ProbeOutcome) : RunResult :=
  match cfg.power_manager with
  | none => RunResult.tick_loop
  | some pm =>
    if pm = PM_PISUGAR2 then
      let r := get_pisugar2_manager cfg probe
      if r.1 = true then RunResult.power_cycle r.2
      else RunResult.browse_exit
        (r.2 ++ [(("I assume you want to browse data, not collect. Exiting data logger." : String), (0 : Nat))])
    else RunResult.name_error

/-- True when the run outcome sets the global g_done flag (line 269). -/
def g_done_after : RunResult → Bool
  | RunResult.browse_exit _ => true
  | _ => false

/-- Log events emitted on the startup path. -/
def run_events : RunResult → List LogEvent
  | RunResult.browse_exit evs => evs
  | RunResult.power_cycle evs => evs
  | _ => []

/-- The relaunch loop at line 304 runs run again whenever g_done is still
False; when g_done is True it falls off the end of the script, which is a
normal Python process termination with exit code 0.  The exit code is
therefore defined exactly when the loop stops relaunching. -/
def process_exit : RunResult → Option Nat
  | r => if g_done_after r = true then some 0 else none

/-- A log event is the PowerDeviceError of the spec when it is one of the
two unreachable-device error lines of get_pisugar2_manager. -/
def is_power_device_error (e : LogEvent) : Bool :=
  (e.1 == "PiSugar configured, but not found" || e.1 == "PiSugar configured, but not available") && e.2 == 1

/-- Concatenation of a list of strings, used by the spec-side definitions. -/
def str_concat : List String → String
  | [] => ""
  | a :: rest => a ++ str_concat rest

/-- Header row as the spec words it: the timestamp column title followed by
a comma and the label (first component) of every element of the sample, in
order.  This is the refinement target for get_header. -/
def header_spec (dataset : List (List String)) : String :=
  "Timestamp (UTC)" ++ str_concat (dataset.map (fun x => "," ++ x.headD ""))

/-- Data row as observed from the source behavior: the row timestamp
followed by a comma and the value (second component) of exactly those
elements whose length is 2, in order. -/
def row_spec (row_ts : String) (data : List (List String)) : String :=
  row_ts ++ str_concat ((data.filter (fun x => x.length == 2)).map (fun x => "," ++ x.getD 1 ""))

/-- Number of newline characters in a string. -/
def newline_count (s : String) : Nat := s.data.count '\n'

/-- Number of data rows in a file whose header and rows are newline-free
and newline-terminated: total lines minus the header line. -/
def data_rows (c : String) : Nat := newline_count c - 1

/-- The k data rows of a file, each newline-terminated. -/
def mk_rows (row : String) : Nat → String
  | 0 => ""
  | k + 1 => mk_rows row k ++ (row ++ "\n")

/-- Content of a file holding a header line and k identical data rows. -/
def file_content (header row : String) (k : Nat) : String :=
  (header ++ "\n") ++ mk_rows row k

/-- n successive successful collections of one source, the i-th using
timestamp ts i for the file name and always sampling the same data. -/
def collect_iter (csv_dir : String) (ts : Nat → String) (row_ts : String)
    (data : List (List String)) : Nat → SensorSettings × FS → SensorSettings × FS
  | 0, st => st
  | n + 1, st =>
    let st2 := collect_iter csv_dir ts row_ts data n st
    (collect csv_dir (ts n) row_ts (Except.ok data) st2.1 st2.2).1

/-- How many of the candidate paths for the first n collections exist in
the filesystem: each counted path is the one a rotation at call i would
have opened, so this counts the files actually opened. -/
def opened_files (csv_dir : String) (ts : Nat → String) (fs : FS) (n : Nat) : Nat :=
  (List.range n).countP (fun i => (fs (get_collect_file_path csv_dir (ts i))).isSome)

/- String facts used throughout; String.append is concatenation of the
underlying character lists. -/

theorem str_data_append (a b : String) : (a ++ b).data = a.data ++ b.data := by
  cases a; cases b; rfl

theorem str_empty_data : ("" : String).data = [] := rfl

theorem str_ext {a b : String} (h : a.data = b.data) : a = b := by
  cases a; cases b; exact congrArg String.mk h

theorem str_append_assoc (a b c : String) : a ++ b ++ c = a ++ (b ++ c) := by
  apply str_ext; simp [str_data_append]

theorem str_empty_append (s : String) : "" ++ s = s := by
  apply str_ext; simp [str_data_append, str_empty_data]

theorem str_append_empty (s : String) : s ++ "" = s := by
  apply str_ext; simp [str_data_append, str_empty_data]

theorem str_append_left_cancel {a b c : String} (h : a ++ b = a ++ c) : b = c := by
  have h2 := congrArg String.data h
  simp only [str_data_append] at h2
  exact str_ext (List.append_cancel_left h2)

theorem str_append_right_cancel {a b c : String} (h : a ++ c = b ++ c) : a = b := by
  have h2 := congrArg String.data h
  simp only [str_data_append] at h2
  exact str_ext (List.append_cancel_right h2)

theorem newline_count_append (a b : String) :
    newline_count (a ++ b) = newline_count a + newline_count b := by
  simp [newline_count, str_data_append, List.count_append]

/-- Number of comma characters in a string; a comma-separated line with
comma-free fields has comma_count plus one fields. -/
def comma_count (s : String) : Nat := s.data.count ','

theorem comma_count_append (a b : String) :
    comma_count (a ++ b) = comma_count a + comma_count b := by
  simp [comma_count, str_data_append, List.count_append]

theorem str_concat_cons (a : String) (l : List String) :
    str_concat (a :: l) = a ++ str_concat l := rfl

/-- The row loop of collect computes exactly the spec-side row: timestamp
followed by the second component of each length-2 element, in order. -/
theorem data_row_eq_row_spec (l : List (List String)) :
    ∀ s : String, data_row s l = row_spec s l := by
  induction l with
  | nil =>
    intro s
    simp [data_row, row_spec, str_concat, str_append_empty]
  | cons x rest ih =>
    intro s
    by_cases hx : x.length = 2
    · simp only [data_row, if_pos hx, ih, row_spec]
      simp [List.filter_cons, hx, str_concat_cons, str_append_assoc]
    · simp only [data_row, if_neg hx, ih, row_spec]
      simp [List.filter_cons, hx]

/-- The header loop of get_header computes exactly the spec-side header
whenever no element of the dataset is empty: the timestamp column title
followed by the first component of every element, in order. -/
theorem get_header_go_eq (l : List (List String)) :
    ∀ s : String, (∀ x ∈ l, x ≠ []) →
      get_header_go s l = some (s ++ str_concat (l.map (fun x => "," ++ x.headD ""))) := by
  induction l with
  | nil =>
    intro s _
    simp [get_header_go, str_concat, str_append_empty]
  | cons x rest ih =>
    intro s hne
    cases x with
    | nil => exact absurd rfl (hne [] (by simp))
    | cons a xs =>
      have hrest : ∀ y ∈ rest, y ≠ [] := fun y hy => hne y (by simp [hy])
      simp only [get_header_go, List.head?, List.map_cons, str_concat_cons]
      rw [ih _ hrest]
      simp [str_append_assoc]

/-- get_header against the spec wording. -/
theorem get_header_eq_header_spec (l : List (List String)) (h : ∀ x ∈ l, x ≠ []) :
    get_header l = some (header_spec l) :=
  get_header_go_eq l "Timestamp (UTC)" h

/-- collect when rotation triggers (unset path, or the incremented count
reaches rollover_max), the fresh path does not exist yet, the sample
succeeds and the header computes: a new file is written holding the header
line and one data row, and rollover_count is reset to 0. -/
theorem collect_ok_rotate_fresh (csv_dir path_ts row_ts : String)
    (data : List (List String)) (ss : SensorSettings) (fs : FS) (hdr : String)
    (hrot : ss.path = none ∨ ss.rollover_count + 1 ≥ ss.rollover_max)
    (hfs : (fs (get_collect_file_path csv_dir path_ts)).getD "" = "")
    (hhdr : get_header data = some hdr) :
    collect csv_dir path_ts row_ts (Except.ok data) ss fs =
      (({ ss with path := some (get_collect_file_path csv_dir path_ts), rollover_count := 0 },
        fs_write fs (get_collect_file_path csv_dir path_ts)
          ((hdr ++ "\n") ++ (data_row row_ts data ++ "\n"))),
       Except.ok ()) := by
  have hr : (ss.path = none ∨ ss.rollover_max ≤ ss.rollover_count + 1) := by
    simpa [ge_iff_le] using hrot
  simp [collect, hr, hfs, hhdr, str_empty_append]

/-- collect when the active path is set, rotation does not trigger, the
file already has content and the sample succeeds: the data row is appended
to the existing content, no header is written, the path is kept and
rollover_count is incremented by one. -/
theorem collect_ok_append (csv_dir path_ts row_ts : String)
    (data : List (List String)) (ss : SensorSettings) (fs : FS) (p c : String)
    (hpath : ss.path = some p)
    (hrot : ¬ss.rollover_count + 1 ≥ ss.rollover_max)
    (hfs : fs p = some c) (hc : c ≠ "") :
    collect csv_dir path_ts row_ts (Except.ok data) ss fs =
      (({ ss with rollover_count := ss.rollover_count + 1 },
        fs_write fs p (c ++ (data_row row_ts data ++ "\n"))),
       Except.ok ()) := by
  have hr2 : ¬ss.rollover_max ≤ ss.rollover_count + 1 := by
    simpa [ge_iff_le] using hrot
  simp [collect, hpath, hr2, hfs, hc]

/-- collect when the sample raises and rotation does not trigger: the
exception escapes, rollover_count has nevertheless been incremented, the
path is kept, and the file is left with its previous content (created
empty when absent, since opening for append creates it). -/
theorem collect_error_no_rotate (csv_dir path_ts row_ts : String)
    (e : String) (ss : SensorSettings) (fs : FS) (p : String)
    (hpath : ss.path = some p)
    (hrot : ¬ss.rollover_count + 1 ≥ ss.rollover_max) :
    collect csv_dir path_ts row_ts (Except.error e) ss fs =
      (({ ss with rollover_count := ss.rollover_count + 1 },
        fs_write fs p ((fs p).getD "")),
       Except.error (PyError.sampleError e)) := by
  have hr2 : ¬ss.rollover_max ≤ ss.rollover_count + 1 := by
    simpa [ge_iff_le] using hrot
  simp [collect, hpath, hr2]

/-- collect when the sample raises and rotation does trigger: the
exception escapes, but the descriptor has already rotated to the fresh
path with rollover_count reset, and the fresh file has been created. -/
theorem collect_error_rotate (csv_dir path_ts row_ts : String)
    (e : String) (ss : SensorSettings) (fs : FS)
    (hrot : ss.path = none ∨ ss.rollover_count + 1 ≥ ss.rollover_max) :
    collect csv_dir path_ts row_ts (Except.error e) ss fs =
      (({ ss with path := some (get_collect_file_path csv_dir path_ts), rollover_count := 0 },
        fs_write fs (get_collect_file_path csv_dir path_ts)
          ((fs (get_collect_file_path csv_dir path_ts)).getD "")),
       Except.error (PyError.sampleError e)) := by
  have hr : (ss.path = none ∨ ss.rollover_max ≤ ss.rollover_count + 1) := by
    simpa [ge_iff_le] using hrot
  simp [collect, hr]

/- Small facts about rows, file contents and Nat arithmetic used by the
rollover analysis. -/

theorem newline_data : ("\n" : String).data = ['\n'] := rfl

theorem file_content_succ (h row : String) (k : Nat) :
    file_content h row (k + 1) = file_content h row k ++ (row ++ "\n") := by
  simp [file_content, mk_rows, str_append_assoc]

theorem file_content_one (h row : String) :
    file_content h row 1 = (h ++ "\n") ++ (row ++ "\n") := by
  simp [file_content, mk_rows, str_empty_append]

theorem file_content_ne_empty (h row : String) (k : Nat) :
    file_content h row k ≠ "" := by
  intro hcontra
  have hdata := congrArg String.data hcontra
  simp [file_content, str_data_append, str_empty_data, newline_data] at hdata

theorem newline_count_empty : newline_count "" = 0 := rfl

theorem newline_count_nl : newline_count "\n" = 1 := rfl

theorem newline_count_file_content (h row : String) (k : Nat)
    (hh : newline_count h = 0) (hr : newline_count row = 0) :
    newline_count (file_content h row k) = k + 1 := by
  induction k with
  | zero =>
    simp [file_content, mk_rows, newline_count_append, hh, newline_count_nl,
      newline_count_empty, str_append_empty]
  | succ k ih =>
    rw [file_content_succ, newline_count_append, ih, newline_count_append, hr,
      newline_count_nl]

theorem succ_full (R n : Nat) (hR : 0 < R) (h : n % R + 1 = R) :
    (n + 1) % R = 0 ∧ (n + 1) / R = n / R + 1 ∧ n + 1 = R * (n / R + 1) := by
  have hdm := Nat.div_add_mod n R
  have he : n + 1 = R * (n / R + 1) := by
    rw [Nat.mul_succ]
    generalize R * (n / R) = A at hdm ⊢
    omega
  refine ⟨?_, ?_, he⟩
  · rw [he]; exact Nat.mul_mod_right R _
  · rw [he]; exact Nat.mul_div_cancel_left _ hR

theorem succ_part (R n : Nat) (hR : 0 < R) (h : n % R + 1 < R) :
    (n + 1) % R = n % R + 1 ∧ (n + 1) / R = n / R := by
  have hdm := Nat.div_add_mod n R
  have he : n + 1 = R * (n / R) + (n % R + 1) := by
    generalize R * (n / R) = A at hdm ⊢
    omega
  constructor
  · rw [he, Nat.mul_add_mod]; exact Nat.mod_eq_of_lt h
  · rw [he, Nat.mul_add_div hR, Nat.div_eq_of_lt h, Nat.add_zero]

theorem mult_gap (R i m : Nat) (hi : R ∣ i) (hm : R ∣ m) (hlt : i < m) :
    R ≤ m - i :=
  Nat.le_of_dvd (by omega) (Nat.dvd_sub' hm hi)

theorem lt_top_mult (R i n : Nat) (hR : 0 < R) (hi : R ∣ i) (hla : i ≤ n)
    (hne : i ≠ R * (n / R)) : i < R * (n / R) := by
  obtain ⟨j, hj⟩ := hi
  subst hj
  have hjle : j ≤ n / R := by
    rw [Nat.le_div_iff_mul_le hR]
    calc j * R = R * j := Nat.mul_comm j R
    _ ≤ n := hla
  have hne2 : j ≠ n / R := fun hcontra => hne (by rw [hcontra])
  have hjlt : j < n / R := lt_of_le_of_ne hjle hne2
  exact (Nat.mul_lt_mul_left hR).2 hjlt

/-- File paths built from the same data directory and distinct timestamp
strings are distinct. -/
theorem get_collect_file_path_inj (csv_dir : String) {t1 t2 : String}
    (h : get_collect_file_path csv_dir t1 = get_collect_file_path csv_dir t2) :
    t1 = t2 := by
  simp only [get_collect_file_path] at h
  exact str_append_right_cancel (str_append_left_cancel h)

/-- The descriptor and filesystem after m successful collections of a
single source that starts fresh (no file, zero counters) with rollover_max
R, the i-th collection reading clock string ts i for its file name. -/
def iterSt (csv_dir : String) (ts : Nat → String) (row_ts : String)
    (data : List (List String)) (nm : String) (p0 : Int) (R : Nat) (m : Nat) :
    SensorSettings × FS :=
  collect_iter csv_dir ts row_ts data m (init_settings nm p0 (R : Int), emptyFS)

theorem iterSt_succ (csv_dir : String) (ts : Nat → String) (row_ts : String)
    (data : List (List String)) (nm : String) (p0 : Int) (R : Nat) (m : Nat) :
    iterSt csv_dir ts row_ts data nm p0 R (m + 1) =
      (collect csv_dir (ts m) row_ts (Except.ok data)
        (iterSt csv_dir ts row_ts data nm p0 R m).1
        (iterSt csv_dir ts row_ts data nm p0 R m).2).1 := rfl

/-- Full characterization of the rollover machinery, by induction on the
number of collections.  After n+1 successful collections with distinct
per-collection timestamps: the active path is the one opened at the most
recent rotation (collection index R*(n/R)); rollover_count is n mod R;
rotations happened exactly at the collection indices that are multiples of
R, each such index i owning a file with min R (n+1-i) data rows; no other
path was ever created. -/
theorem iter_inv (csv_dir : String) (ts : Nat → String) (row_ts : String)
    (data : List (List String)) (hdr : String) (nm : String) (p0 : Int) (R : Nat)
    (hR : 0 < R)
    (hinj : ∀ i j, ts i = ts j → i = j)
    (hhdr : get_header data = some hdr) :
    ∀ n : Nat,
      (iterSt csv_dir ts row_ts data nm p0 R (n + 1)).1.path
          = some (get_collect_file_path csv_dir (ts (R * (n / R)))) ∧
      (iterSt csv_dir ts row_ts data nm p0 R (n + 1)).1.rollover_count = ((n % R : Nat) : Int) ∧
      (iterSt csv_dir ts row_ts data nm p0 R (n + 1)).1.rollover_max = (R : Int) ∧
      (∀ i : Nat, i % R = 0 → i ≤ n →
        (iterSt csv_dir ts row_ts data nm p0 R (n + 1)).2 (get_collect_file_path csv_dir (ts i))
          = some (file_content hdr (data_row row_ts data) (min R (n + 1 - i)))) ∧
      (∀ i : Nat, ¬(i % R = 0 ∧ i ≤ n) →
        (iterSt csv_dir ts row_ts data nm p0 R (n + 1)).2 (get_collect_file_path csv_dir (ts i))
          = none) := by
  have hpne : ∀ i j : Nat, i ≠ j →
      get_collect_file_path csv_dir (ts i) ≠ get_collect_file_path csv_dir (ts j) :=
    fun i j hne hcontra => hne (hinj i j (get_collect_file_path_inj csv_dir hcontra))
  intro n
  induction n with
  | zero =>
    have h1 : iterSt csv_dir ts row_ts data nm p0 R (0 + 1)
        = (collect csv_dir (ts 0) row_ts (Except.ok data)
            (init_settings nm p0 (R : Int)) emptyFS).1 := rfl
    rw [collect_ok_rotate_fresh csv_dir (ts 0) row_ts data
        (init_settings nm p0 (R : Int)) emptyFS hdr (Or.inl rfl) rfl hhdr] at h1
    rw [h1]
    refine ⟨by simp, by simp, by simp [init_settings], ?_, ?_⟩
    · intro i hi hle
      have hi0 : i = 0 := Nat.le_zero.mp hle
      subst hi0
      have hmin : min R (0 + 1 - 0) = 1 := by
        simpa using Nat.min_eq_right hR
      rw [hmin, file_content_one]
      simp [fs_write]
    · intro i hni
      have hne : i ≠ 0 := by
        intro hcontra
        exact hni (by simp [hcontra, Nat.zero_mod])
      simp [fs_write, hpne i 0 hne, emptyFS]
  | succ n ih =>
    obtain ⟨ih1, ih2, ih3, ih4, ih5⟩ := ih
    have hrlt : n % R < R := Nat.mod_lt _ hR
    have hsum : R * (n / R) + n % R = n := Nat.div_add_mod n R
    rcases Nat.lt_or_ge (n % R + 1) R with hcase | hcase
    · -- no rotation: the incremented count stays below rollover_max
      obtain ⟨hm1, hd1⟩ := succ_part R n hR hcase
      have ha_mod : (R * (n / R)) % R = 0 := Nat.mul_mod_right R _
      have ha_le : R * (n / R) ≤ n := by
        generalize R * (n / R) = A at hsum ⊢
        omega
      have h1 : n + 1 - R * (n / R) = n % R + 1 := by
        generalize R * (n / R) = A at hsum ⊢
        omega
      have hc_old := ih4 (R * (n / R)) ha_mod ha_le
      rw [h1, Nat.min_eq_right (by omega)] at hc_old
      have hrot2 : ¬(iterSt csv_dir ts row_ts data nm p0 R (n + 1)).1.rollover_count + 1
          ≥ (iterSt csv_dir ts row_ts data nm p0 R (n + 1)).1.rollover_max := by
        rw [ih2, ih3]
        exact not_le.mpr (by exact_mod_cast hcase)
      have hstep : iterSt csv_dir ts row_ts data nm p0 R (n + 1 + 1)
          = (({ (iterSt csv_dir ts row_ts data nm p0 R (n + 1)).1 with
                rollover_count := (iterSt csv_dir ts row_ts data nm p0 R (n + 1)).1.rollover_count + 1 },
             fs_write (iterSt csv_dir ts row_ts data nm p0 R (n + 1)).2
               (get_collect_file_path csv_dir (ts (R * (n / R))))
               (file_content hdr (data_row row_ts data) (n % R + 1)
                 ++ (data_row row_ts data ++ "\n")))) := by
        rw [iterSt_succ]
        rw [collect_ok_append csv_dir (ts (n + 1)) row_ts data _ _
          (get_collect_file_path csv_dir (ts (R * (n / R))))
          (file_content hdr (data_row row_ts data) (n % R + 1))
          ih1 hrot2 hc_old (file_content_ne_empty _ _ _)]
      rw [hstep]
      refine ⟨?_, ?_, ?_, ?_, ?_⟩
      · simp [ih1, hd1]
      · simp only []
        rw [ih2, hm1]
        push_cast
        ring
      · simp [ih3]
      · intro i hi hle
        by_cases hieq : i = R * (n / R)
        · subst hieq
          have hval : n + 1 + 1 - R * (n / R) = n % R + 2 := by
            generalize R * (n / R) = A at hsum ⊢
            omega
          rw [hval, Nat.min_eq_right (by omega)]
          simp [fs_write, file_content_succ]
        · have hile : i ≤ n := by
            rcases Nat.lt_or_ge i (n + 1) with h2 | h2
            · omega
            · exfalso
              have : i = n + 1 := by omega
              subst this
              rw [hm1] at hi
              omega
          have hlt := lt_top_mult R i n hR (Nat.dvd_of_mod_eq_zero hi) hile hieq
          have hgap := mult_gap R i (R * (n / R)) (Nat.dvd_of_mod_eq_zero hi)
            (Dvd.intro _ rfl) hlt
          have hmin2 : min R (n + 1 - i) = R := by
            apply Nat.min_eq_left
            generalize R * (n / R) = A at hsum hgap hlt ⊢
            omega
          have hmin3 : min R (n + 1 + 1 - i) = R := by
            apply Nat.min_eq_left
            generalize R * (n / R) = A at hsum hgap hlt ⊢
            omega
          have hpne2 := hpne i (R * (n / R)) hieq
          simp only [fs_write, if_neg hpne2]
          rw [ih4 i hi hile, hmin2, hmin3]
      · intro i hni
        have hne : i ≠ R * (n / R) := by
          intro hcontra
          subst hcontra
          exact hni ⟨ha_mod, by omega⟩
        simp only [fs_write, if_neg (hpne i (R * (n / R)) hne)]
        apply ih5
        intro ⟨hca, hcb⟩
        rcases Nat.lt_or_ge n i with h2 | h2
        · have : i = n + 1 := by omega
          subst this
          rw [hm1] at hca
          omega
        · exact hni ⟨hca, by omega⟩
    · -- rotation: the incremented count reaches rollover_max
      have hfull : n % R + 1 = R := by omega
      obtain ⟨hm0, hd1, heq⟩ := succ_full R n hR hfull
      have hrot2 : (iterSt csv_dir ts row_ts data nm p0 R (n + 1)).1.path = none
          ∨ (iterSt csv_dir ts row_ts data nm p0 R (n + 1)).1.rollover_count + 1
              ≥ (iterSt csv_dir ts row_ts data nm p0 R (n + 1)).1.rollover_max :=
        Or.inr (by rw [ih2, ih3]; exact_mod_cast hfull.ge)
      have hfs2 : (iterSt csv_dir ts row_ts data nm p0 R (n + 1)).2
          (get_collect_file_path csv_dir (ts (n + 1))) = none := by
        apply ih5
        intro ⟨_, hcb⟩
        omega
      have hstep : iterSt csv_dir ts row_ts data nm p0 R (n + 1 + 1)
          = (({ (iterSt csv_dir ts row_ts data nm p0 R (n + 1)).1 with
                path := some (get_collect_file_path csv_dir (ts (n + 1))),
                rollover_count := 0 },
             fs_write (iterSt csv_dir ts row_ts data nm p0 R (n + 1)).2
               (get_collect_file_path csv_dir (ts (n + 1)))
               ((hdr ++ "\n") ++ (data_row row_ts data ++ "\n")))) := by
        rw [iterSt_succ]
        rw [collect_ok_rotate_fresh csv_dir (ts (n + 1)) row_ts data _ _ hdr
          hrot2 (by rw [hfs2]; rfl) hhdr]
      rw [hstep]
      refine ⟨?_, ?_, ?_, ?_, ?_⟩
      · simp only []
        rw [hd1, ← heq]
      · simp [hm0]
      · simp [ih3]
      · intro i hi hle
        by_cases hieq : i = n + 1
        · subst hieq
          have hval : n + 1 + 1 - (n + 1) = 1 := by omega
          rw [hval, Nat.min_eq_right hR, file_content_one]
          simp [fs_write]
        · have hile : i ≤ n := by omega
          have hd : R ∣ n + 1 := Nat.dvd_of_mod_eq_zero hm0
          have hgap : R ≤ n + 1 - i :=
            mult_gap R i (n + 1) (Nat.dvd_of_mod_eq_zero hi) hd (by omega)
          have hmin2 : min R (n + 1 - i) = R := Nat.min_eq_left (by omega)
          have hmin3 : min R (n + 1 + 1 - i) = R := Nat.min_eq_left (by omega)
          simp only [fs_write, if_neg (hpne i (n + 1) hieq)]
          rw [ih4 i hi hile, hmin2, hmin3]
      · intro i hni
        have hne : i ≠ n + 1 := by
          intro hcontra
          subst hcontra
          exact hni ⟨hm0, Nat.le_refl _⟩
        simp only [fs_write, if_neg (hpne i (n + 1) hne)]
        apply ih5
        intro ⟨hca, hcb⟩
        exact hni ⟨hca, by omega⟩

/-- collect when rotation triggers but the freshly derived path already
exists with nonempty content (as happens when two sources rotate within
the same strftime second): the row is appended to the existing file and no
header is written, since the size check sees a nonzero size. -/
theorem collect_ok_rotate_append (csv_dir path_ts row_ts : String)
    (data : List (List String)) (ss : SensorSettings) (fs : FS) (c : String)
    (hrot : ss.path = none ∨ ss.rollover_count + 1 ≥ ss.rollover_max)
    (hfs : fs (get_collect_file_path csv_dir path_ts) = some c) (hc : c ≠ "") :
    collect csv_dir path_ts row_ts (Except.ok data) ss fs =
      (({ ss with path := some (get_collect_file_path csv_dir path_ts), rollover_count := 0 },
        fs_write fs (get_collect_file_path csv_dir path_ts)
          (c ++ (data_row row_ts data ++ "\n"))),
       Except.ok ()) := by
  have hr : (ss.path = none ∨ ss.rollover_max ≤ ss.rollover_count + 1) := by
    simpa [ge_iff_le] using hrot
  simp [collect, hr, hfs, hc]

/-- In the initial segment of the naturals, the multiples of R number one
more than n / R when the segment is 0..n. -/
theorem count_mults (R : Nat) : ∀ n : Nat,
    (List.range (n + 1)).countP (fun i => decide (i % R = 0)) = n / R + 1 := by
  intro n
  induction n with
  | zero => simp [List.range_succ]
  | succ n ih =>
    rw [List.range_succ, List.countP_append, ih]
    by_cases h : R ∣ (n + 1)
    · have hm : (n + 1) % R = 0 := Nat.mod_eq_zero_of_dvd h
      have hd : (n + 1) / R = n / R + 1 := by rw [Nat.succ_div, if_pos h]
      simp [List.countP_cons, hm, hd]
    · have hm : (n + 1) % R ≠ 0 := fun hc => h (Nat.dvd_of_mod_eq_zero hc)
      have hd : (n + 1) / R = n / R := by rw [Nat.succ_div, if_neg h, Nat.add_zero]
      simp [List.countP_cons, hm, hd]

/-- The files opened during the first n+1 collections are exactly those at
the rotation indices, so their number is n / R + 1. -/
theorem opened_files_iter (csv_dir : String) (ts : Nat → String) (row_ts : String)
    (data : List (List String)) (hdr : String) (nm : String) (p0 : Int) (R : Nat)
    (hR : 0 < R)
    (hinj : ∀ i j, ts i = ts j → i = j)
    (hhdr : get_header data = some hdr) (n : Nat) :
    opened_files csv_dir ts (iterSt csv_dir ts row_ts data nm p0 R (n + 1)).2 (n + 1)
      = n / R + 1 := by
  obtain ⟨_, _, _, h4, h5⟩ := iter_inv csv_dir ts row_ts data hdr nm p0 R hR hinj hhdr n
  rw [opened_files]
  have hpq : ∀ i ∈ List.range (n + 1),
      ((iterSt csv_dir ts row_ts data nm p0 R (n + 1)).2
          (get_collect_file_path csv_dir (ts i))).isSome
        ↔ decide (i % R = 0) := by
    intro i hi
    have hile : i ≤ n := by
      have := List.mem_range.mp hi
      omega
    by_cases hm : i % R = 0
    · rw [h4 i hm hile]
      simp [hm]
    · rw [h5 i (by intro hand; exact hm hand.1)]
      simp [hm]
  rw [List.countP_congr hpq]
  exact count_mults R n

theorem comma_count_comma_pre (v : String) :
    comma_count ("," ++ v) = 1 + comma_count v := by
  rw [comma_count_append, show comma_count "," = 1 from rfl]

theorem comma_count_concat_vals (l : List (List String))
    (hvals : ∀ x ∈ l, x.length = 2 → comma_count (x.getD 1 "") = 0) :
    comma_count (str_concat ((l.filter (fun x => x.length == 2)).map
        (fun x => "," ++ x.getD 1 "")))
      = (l.filter (fun x => x.length == 2)).length := by
  induction l with
  | nil => rfl
  | cons x rest ih =>
    have hrest : ∀ y ∈ rest, y.length = 2 → comma_count (y.getD 1 "") = 0 :=
      fun y hy => hvals y (by simp [hy])
    by_cases hx : x.length = 2
    · have hvx := hvals x (by simp) hx
      have hfil : List.filter (fun y => y.length == 2) (x :: rest)
          = x :: List.filter (fun y => y.length == 2) rest := by
        simp [List.filter_cons, hx]
      rw [hfil, List.map_cons, str_concat_cons]
      simp only [comma_count_append]
      rw [hvx, ih hrest, show comma_count "," = 1 from rfl, List.length_cons]
      omega
    · have hfil : List.filter (fun y => y.length == 2) (x :: rest)
          = List.filter (fun y => y.length == 2) rest := by
        simp [List.filter_cons, hx]
      rw [hfil, ih hrest]

/-- Claim C2, corrected.  The source performs no arity check at all: when
the active file already has an established header, a successful sample is
always appended as one data row regardless of how its field count compares
with the header arity.  The appended row is the timestamp followed by the
values of exactly the length-2 elements, so (for comma-free fields) it has
1 + (number of length-2 elements) comma-separated fields, which need not
equal the header arity; no error value exists and nothing is truncated or
padded to fit the header. -/
theorem claim_C2 (csv_dir path_ts row_ts p c : String)
    (data : List (List String)) (ss : SensorSettings) (fs : FS)
    (hpath : ss.path = some p)
    (hrot : ¬ss.rollover_count + 1 ≥ ss.rollover_max)
    (hfs : fs p = some c) (hc : c ≠ "")
    (hts : comma_count row_ts = 0)
    (hvals : ∀ x ∈ data, x.length = 2 → comma_count (x.getD 1 "") = 0) :
    (collect csv_dir path_ts row_ts (Except.ok data) ss fs).2 = Except.ok () ∧
    (collect csv_dir path_ts row_ts (Except.ok data) ss fs).1.2 p
      = some (c ++ (data_row row_ts data ++ "\n")) ∧
    comma_count (data_row row_ts data)
      = (data.filter (fun x => x.length == 2)).length := by
  rw [collect_ok_append csv_dir path_ts row_ts data ss fs p c hpath hrot hfs hc]
  refine ⟨rfl, by simp [fs_write], ?_⟩
  rw [data_row_eq_row_spec, row_spec, comma_count_append, hts,
    comma_count_concat_vals data hvals, Nat.zero_add]

/-- Witness for claim_C2 at a concrete input: header arity 3 established
in the file, sample with a single pair; the call succeeds and appends a
2-field row. -/
theorem claim_C2_witness :
    (collect "d" "T2" "R2" (Except.ok [["a", "1"]])
        { name := "s", ticks := 0, period := 1, rollover_max := 10,
          rollover_count := 0, path := some "d/f" }
        (fs_write emptyFS "d/f" "Timestamp (UTC),a,b\nR1,1,2\n")).2 = Except.ok ()
    ∧ (collect "d" "T2" "R2" (Except.ok [["a", "1"]])
        { name := "s", ticks := 0, period := 1, rollover_max := 10,
          rollover_count := 0, path := some "d/f" }
        (fs_write emptyFS "d/f" "Timestamp (UTC),a,b\nR1,1,2\n")).1.2 "d/f"
      = some ("Timestamp (UTC),a,b\nR1,1,2\n" ++ ("R2,1" ++ "\n"))
    ∧ comma_count (data_row "R2" [["a", "1"]]) = 1 := by
  have h := claim_C2 "d" "T2" "R2" "d/f" "Timestamp (UTC),a,b\nR1,1,2\n"
    [["a", "1"]]
    { name := "s", ticks := 0, period := 1, rollover_max := 10,
      rollover_count := 0, path := some "d/f" }
    (fs_write emptyFS "d/f" "Timestamp (UTC),a,b\nR1,1,2\n")
    rfl (by decide) (by decide) (by decide) (by decide)
    (by intro x hx h2; simp at hx; subst hx; decide)
  simpa using h

/-- Counterexample to claim C2 as stated: with header arity 3 established
(two labels), a sample whose field count is 1 is still written: the call
returns success and a 2-field data row is appended, where the claim
demands an error and no appended row. -/
theorem claim_C2_counterexample :
    (collect "d" "T2" "R2" (Except.ok [["b", "7"]])
        { name := "s", ticks := 0, period := 1, rollover_max := 10,
          rollover_count := 0, path := some "d/g" }
        (fs_write emptyFS "d/g" "Timestamp (UTC),a,b\nR1,1,2\n")).2 = Except.ok ()
    ∧ (collect "d" "T2" "R2" (Except.ok [["b", "7"]])
        { name := "s", ticks := 0, period := 1, rollover_max := 10,
          rollover_count := 0, path := some "d/g" }
        (fs_write emptyFS "d/g" "Timestamp (UTC),a,b\nR1,1,2\n")).1.2 "d/g"
      = some "Timestamp (UTC),a,b\nR1,1,2\nR2,7\n" := by
  constructor
  · rfl
  · decide

/-- Claim C10, confirmed.  For a sample whose elements are tuples of
arbitrary length: a successful append writes exactly one data row holding
the timestamp and then the values (second components) of exactly the
length-2 elements, in order; a freshly written header takes the first
component of every element regardless of its length; the empty sample
yields a row that is the bare timestamp. -/
theorem claim_C10 (csv_dir path_ts row_ts p c : String)
    (data : List (List String)) (ss : SensorSettings) (fs : FS)
    (hpath : ss.path = some p)
    (hrot : ¬ss.rollover_count + 1 ≥ ss.rollover_max)
    (hfs : fs p = some c) (hc : c ≠ "") :
    (data_row row_ts data
      = row_ts ++ str_concat ((data.filter (fun x => x.length == 2)).map
          (fun x => "," ++ x.getD 1 ""))) ∧
    (data_row row_ts ([] : List (List String)) = row_ts) ∧
    ((∀ x ∈ data, x ≠ []) →
      get_header data
        = some ("Timestamp (UTC)" ++ str_concat (data.map (fun x => "," ++ x.headD "")))) ∧
    ((collect csv_dir path_ts row_ts (Except.ok data) ss fs).1.2 p
      = some (c ++ (data_row row_ts data ++ "\n"))) := by
  refine ⟨data_row_eq_row_spec data row_ts, rfl, get_header_eq_header_spec data, ?_⟩
  rw [collect_ok_append csv_dir path_ts row_ts data ss fs p c hpath hrot hfs hc]
  simp [fs_write]

/-- Witness for claim_C10 at a concrete input with a 3-tuple element: the
header gains a column for it, the row does not gain a field for it. -/
theorem claim_C10_witness :
    (data_row "R" [["a", "1"], ["b", "2", "x"], ["c", "3"]] = "R,1,3")
    ∧ (get_header [["a", "1"], ["b", "2", "x"], ["c", "3"]]
        = some "Timestamp (UTC),a,b,c")
    ∧ ((collect "d" "T" "R" (Except.ok [["a", "1"], ["b", "2", "x"], ["c", "3"]])
        { name := "s", ticks := 0, period := 1, rollover_max := 10,
          rollover_count := 0, path := some "d/h" }
        (fs_write emptyFS "d/h" "Timestamp (UTC),a,b,c\nQ,9,8\n")).1.2 "d/h"
      = some "Timestamp (UTC),a,b,c\nQ,9,8\nR,1,3\n") := by
  have h := claim_C10 "d" "T" "R" "d/h" "Timestamp (UTC),a,b,c\nQ,9,8\n"
    [["a", "1"], ["b", "2", "x"], ["c", "3"]]
    { name := "s", ticks := 0, period := 1, rollover_max := 10,
      rollover_count := 0, path := some "d/h" }
    (fs_write emptyFS "d/h" "Timestamp (UTC),a,b,c\nQ,9,8\n")
    rfl (by decide) (by decide) (by decide)
  obtain ⟨h1, _, h3, h4⟩ := h
  refine ⟨by rw [h1]; decide, ?_, ?_⟩
  · rw [h3 (by decide)]
    decide
  · rw [h4]
    decide

theorem append_nl_ne_empty (a b : String) : a ++ (b ++ "\n") ≠ "" := by
  intro hcontra
  have hdata := congrArg String.data hcontra
  simp [str_data_append, newline_data, str_empty_data] at hdata

/-- Claim C6, confirmed.  The header is written exactly when the file has
zero bytes before the write (absent, or present and empty), and it is
exactly the timestamp column title followed by the labels of the sample in
order; a file with content is only appended to, and every write leaves the
file nonempty, so no later write to the same file can satisfy the
zero-size test again: the header is written exactly once per file. -/
theorem claim_C6 (csv_dir path_ts row_ts : String) (data : List (List String))
    (ss : SensorSettings) (fs : FS)
    (hne : ∀ x ∈ data, x ≠ []) :
    (get_header data = some (header_spec data)) ∧
    ((ss.path = none ∨ ss.rollover_count + 1 ≥ ss.rollover_max) →
      (fs (get_collect_file_path csv_dir path_ts)).getD "" = "" →
      (collect csv_dir path_ts row_ts (Except.ok data) ss fs).1.2
          (get_collect_file_path csv_dir path_ts)
        = some ((header_spec data ++ "\n") ++ (data_row row_ts data ++ "\n"))) ∧
    (∀ p c, ss.path = some p → ¬ss.rollover_count + 1 ≥ ss.rollover_max →
      fs p = some c → c ≠ "" →
      (collect csv_dir path_ts row_ts (Except.ok data) ss fs).1.2 p
        = some (c ++ (data_row row_ts data ++ "\n"))) ∧
    (∀ c, (ss.path = none ∨ ss.rollover_count + 1 ≥ ss.rollover_max) →
      fs (get_collect_file_path csv_dir path_ts) = some c → c ≠ "" →
      (collect csv_dir path_ts row_ts (Except.ok data) ss fs).1.2
          (get_collect_file_path csv_dir path_ts)
        = some (c ++ (data_row row_ts data ++ "\n"))) ∧
    ((header_spec data ++ "\n") ++ (data_row row_ts data ++ "\n") ≠ "" ∧
      ∀ c : String, c ++ (data_row row_ts data ++ "\n") ≠ "") := by
  have hh := get_header_eq_header_spec data hne
  refine ⟨hh, ?_, ?_, ?_, ⟨?_, fun c => append_nl_ne_empty c _⟩⟩
  · intro hrot hfs
    rw [collect_ok_rotate_fresh csv_dir path_ts row_ts data ss fs
      (header_spec data) hrot hfs hh]
    simp [fs_write]
  · intro p c hpath hrot hfs hc
    rw [collect_ok_append csv_dir path_ts row_ts data ss fs p c hpath hrot hfs hc]
    simp [fs_write]
  · intro c hrot hfs hc
    rw [collect_ok_rotate_append csv_dir path_ts row_ts data ss fs c hrot hfs hc]
    simp [fs_write]
  · exact append_nl_ne_empty _ _

/-- Witness for claim_C6: first collection of a fresh source writes the
header line and one data row into the new file. -/
theorem claim_C6_witness :
    (get_header [["a", "1"]] = some "Timestamp (UTC),a")
    ∧ ((collect "d" "T" "R" (Except.ok [["a", "1"]]) (init_settings "s" 1 2) emptyFS).1.2
        (get_collect_file_path "d" "T") = some "Timestamp (UTC),a\nR,1\n") := by
  have h := claim_C6 "d" "T" "R" [["a", "1"]] (init_settings "s" 1 2) emptyFS
    (by intro x hx; simp at hx; subst hx; decide)
  obtain ⟨h1, h2, _, _, _⟩ := h
  constructor
  · rw [h1]; decide
  · rw [h2 (Or.inl rfl) rfl]; decide

/-- Claim C5, corrected.  After N due collections with rollover_max R at
distinct timestamps: the data-row count of the currently active file is
N mod R (or R when R divides N), exactly as claimed; but the number of
files opened is the ceiling (N-1)/R + 1, not the floor N/R claimed for the
rotation count (under either convention for whether the initial file
counts as a rotation); the scenario holds: with R = 2, collections 1 and 2
share the file opened at collection 1 and collection 3 opens a second
file, visible in the active-path conjunct. -/
theorem claim_C5 (csv_dir : String) (ts : Nat → String) (row_ts : String)
    (data : List (List String)) (hdr : String) (nm : String) (p0 : Int)
    (R N : Nat) (hR : 0 < R) (hN : 0 < N)
    (hinj : ∀ i j, ts i = ts j → i = j)
    (hhdr : get_header data = some hdr)
    (hhnl : newline_count hdr = 0)
    (hrnl : newline_count (data_row row_ts data) = 0) :
    (iterSt csv_dir ts row_ts data nm p0 R N).1.path
        = some (get_collect_file_path csv_dir (ts (R * ((N - 1) / R)))) ∧
    opened_files csv_dir ts (iterSt csv_dir ts row_ts data nm p0 R N).2 N
        = (N - 1) / R + 1 ∧
    data_rows (((iterSt csv_dir ts row_ts data nm p0 R N).2
        (get_collect_file_path csv_dir (ts (R * ((N - 1) / R))))).getD "")
        = (if N % R = 0 then R else N % R) := by
  obtain ⟨n, rfl⟩ : ∃ n, N = n + 1 := ⟨N - 1, by omega⟩
  obtain ⟨h1, h2, h3, h4, h5⟩ := iter_inv csv_dir ts row_ts data hdr nm p0 R hR hinj hhdr n
  have hsimp : n + 1 - 1 = n := by omega
  rw [hsimp]
  refine ⟨h1, opened_files_iter csv_dir ts row_ts data hdr nm p0 R hR hinj hhdr n, ?_⟩
  have ha_mod : (R * (n / R)) % R = 0 := Nat.mul_mod_right R _
  have hsum : R * (n / R) + n % R = n := Nat.div_add_mod n R
  have ha_le : R * (n / R) ≤ n := by
    generalize R * (n / R) = A at hsum ⊢
    omega
  have hc := h4 (R * (n / R)) ha_mod ha_le
  have hval : n + 1 - R * (n / R) = n % R + 1 := by
    generalize R * (n / R) = A at hsum ⊢
    omega
  have hrlt : n % R < R := Nat.mod_lt _ hR
  rw [hval, Nat.min_eq_right (by omega)] at hc
  rw [hc]
  simp only [Option.getD_some]
  rw [data_rows, newline_count_file_content _ _ _ hhnl hrnl]
  rcases Nat.lt_or_ge (n % R + 1) R with hcase | hcase
  · obtain ⟨hm1, _⟩ := succ_part R n hR hcase
    rw [hm1, if_neg (by omega)]
    omega
  · have hfull : n % R + 1 = R := by omega
    obtain ⟨hm0, _, _⟩ := succ_full R n hR hfull
    rw [hm0, if_pos rfl]
    omega

/-- Witness for claim_C5 at the scenario input R = 2, N = 3: the third
collection is writing to the second file (opened at collection index 2),
two files exist, and the active file holds one data row. -/
theorem claim_C5_witness :
    (iterSt "d" (fun i => String.mk (List.replicate i 'a')) "R" [["a", "1"]] "s" 1 2 3).1.path
      = some (get_collect_file_path "d" "aa")
    ∧ opened_files "d" (fun i => String.mk (List.replicate i 'a'))
        (iterSt "d" (fun i => String.mk (List.replicate i 'a')) "R" [["a", "1"]] "s" 1 2 3).2 3
      = 2
    ∧ data_rows (((iterSt "d" (fun i => String.mk (List.replicate i 'a')) "R" [["a", "1"]]
        "s" 1 2 3).2 (get_collect_file_path "d" "aa")).getD "") = 1 := by
  have h := claim_C5 "d" (fun i => String.mk (List.replicate i 'a')) "R" [["a", "1"]]
    "Timestamp (UTC),a" "s" 1 2 3 (by decide) (by decide)
    (fun i j hij => by
      have hlen := congrArg (fun s => s.data.length) hij
      simpa using hlen)
    (by decide) (by decide) (by decide)
  obtain ⟨h1, h2, h3⟩ := h
  refine ⟨?_, ?_, ?_⟩
  · rw [h1]; decide
  · rw [h2]
  · have h4 : (if (3 : Nat) % 2 = 0 then 2 else (3 : Nat) % 2) = 1 := rfl
    rw [← h4]
    exact (by decide : get_collect_file_path "d" "aa"
        = get_collect_file_path "d" ((fun i => String.mk (List.replicate i 'a')) (2 * ((3 - 1) / 2)))) ▸ h3

/-- Counterexample to claim C5 as stated: with R = 2, after one collection
one file has been opened although the floor formula gives zero rotations,
and after two collections still only one file has been opened although the
floor formula gives one rotation; so neither the convention that counts
the initial file as a rotation nor the one that does not matches the
floor N / R claim. -/
theorem claim_C5_counterexample :
    opened_files "d" (fun i => String.mk (List.replicate i 'a'))
      (iterSt "d" (fun i => String.mk (List.replicate i 'a')) "R" [["a", "1"]] "s" 1 2 1).2 1 = 1
    ∧ opened_files "d" (fun i => String.mk (List.replicate i 'a'))
      (iterSt "d" (fun i => String.mk (List.replicate i 'a')) "R" [["a", "1"]] "s" 1 2 2).2 2 = 1
    ∧ (1 : Nat) / 2 = 0 ∧ (2 : Nat) / 2 = 1 := by
  refine ⟨by decide, by decide, rfl, rfl⟩

/-- Claim C7, corrected.  rollover_count is incremented at the START of
every collection, before the rotation decision (which consumes the
incremented value) and before anything is written.  Consequently, after
any run of successful collections the counter is one LESS than the number
of data rows in the active file, not equal to it; and a collection whose
sample raises still mutates the counter: it is incremented when no
rotation was due, and reset to zero with the path already rotated when one
was. -/
theorem claim_C7 (csv_dir : String) (ts : Nat → String) (row_ts : String)
    (data : List (List String)) (hdr : String) (nm : String) (p0 : Int)
    (R N : Nat) (hR : 0 < R) (hN : 0 < N)
    (hinj : ∀ i j, ts i = ts j → i = j)
    (hhdr : get_header data = some hdr)
    (hhnl : newline_count hdr = 0)
    (hrnl : newline_count (data_row row_ts data) = 0) :
    ((iterSt csv_dir ts row_ts data nm p0 R N).1.rollover_count + 1
      = ((data_rows (((iterSt csv_dir ts row_ts data nm p0 R N).2
          (get_collect_file_path csv_dir (ts (R * ((N - 1) / R))))).getD "") : Nat) : Int)) ∧
    (∀ (ss : SensorSettings) (fs : FS) (pts rts e p : String),
      ss.path = some p → ¬ss.rollover_count + 1 ≥ ss.rollover_max →
      (collect csv_dir pts rts (Except.error e) ss fs).1.1.rollover_count
          = ss.rollover_count + 1 ∧
        (collect csv_dir pts rts (Except.error e) ss fs).1.1.path = some p) ∧
    (∀ (ss : SensorSettings) (fs : FS) (pts rts e : String),
      (ss.path = none ∨ ss.rollover_count + 1 ≥ ss.rollover_max) →
      (collect csv_dir pts rts (Except.error e) ss fs).1.1.rollover_count = 0 ∧
        (collect csv_dir pts rts (Except.error e) ss fs).1.1.path
          = some (get_collect_file_path csv_dir pts)) := by
  refine ⟨?_, ?_, ?_⟩
  · obtain ⟨n, rfl⟩ : ∃ n, N = n + 1 := ⟨N - 1, by omega⟩
    obtain ⟨h1, h2, h3, h4, h5⟩ := iter_inv csv_dir ts row_ts data hdr nm p0 R hR hinj hhdr n
    have hsimp : n + 1 - 1 = n := by omega
    rw [hsimp, h2]
    have ha_mod : (R * (n / R)) % R = 0 := Nat.mul_mod_right R _
    have hsum : R * (n / R) + n % R = n := Nat.div_add_mod n R
    have ha_le : R * (n / R) ≤ n := by
      generalize R * (n / R) = A at hsum ⊢
      omega
    have hc := h4 (R * (n / R)) ha_mod ha_le
    have hval : n + 1 - R * (n / R) = n % R + 1 := by
      generalize R * (n / R) = A at hsum ⊢
      omega
    have hrlt : n % R < R := Nat.mod_lt _ hR
    rw [hval, Nat.min_eq_right (by omega)] at hc
    rw [hc]
    simp only [Option.getD_some]
    rw [data_rows, newline_count_file_content _ _ _ hhnl hrnl]
    push_cast
    omega
  · intro ss fs pts rts e p hpath hrot
    rw [collect_error_no_rotate csv_dir pts rts e ss fs p hpath hrot]
    exact ⟨rfl, hpath⟩
  · intro ss fs pts rts e hrot
    rw [collect_error_rotate csv_dir pts rts e ss fs hrot]
    exact ⟨rfl, rfl⟩

/-- Witness for claim_C7: after three successful collections with R = 2
the counter is 0 while the active file holds one row; a failing sample
from a non-rotating state increments the counter to 1. -/
theorem claim_C7_witness :
    ((iterSt "d" (fun i => String.mk (List.replicate i 'a')) "R" [["a", "1"]] "s" 1 2 3).1.rollover_count + 1
      = ((data_rows (((iterSt "d" (fun i => String.mk (List.replicate i 'a')) "R" [["a", "1"]]
          "s" 1 2 3).2 (get_collect_file_path "d"
            ((fun i => String.mk (List.replicate i 'a')) (2 * ((3 - 1) / 2))))).getD "") : Nat) : Int))
    ∧ ((collect "d" "T9" "R9" (Except.error "boom")
        { name := "s", ticks := 0, period := 1, rollover_max := 3,
          rollover_count := 0, path := some "d/f" }
        (fs_write emptyFS "d/f" "Timestamp (UTC),a\nR0,1\n")).1.1.rollover_count = 0 + 1) := by
  have h := claim_C7 "d" (fun i => String.mk (List.replicate i 'a')) "R" [["a", "1"]]
    "Timestamp (UTC),a" "s" 1 2 3 (by decide) (by decide)
    (fun i j hij => by
      have hlen := congrArg (fun s => s.data.length) hij
      simpa using hlen)
    (by decide) (by decide) (by decide)
  obtain ⟨h1, h2, _⟩ := h
  refine ⟨h1, ?_⟩
  exact (h2 ⟨"s", 0, 1, 3, 0, some "d/f"⟩
    (fs_write emptyFS "d/f" "Timestamp (UTC),a\nR0,1\n") "T9" "R9" "boom" "d/f"
    rfl (by decide)).1

/-- Counterexample to claim C7 as stated: a collection whose sample raises
leaves rollover_count incremented from 0 to 1 even though nothing was
written; the claim demands that a failed collection leave rollover_count
unchanged.  Also, after one fully successful collection of a fresh source
with R = 3 the counter reads 0 while one row sits in the file, refuting
that the counter equals the number of successful writes to the file. -/
theorem claim_C7_counterexample :
    ((collect "d" "T1" "R1" (Except.error "boom")
        { name := "s", ticks := 0, period := 1, rollover_max := 3,
          rollover_count := 0, path := some "d/f" }
        (fs_write emptyFS "d/f" "Timestamp (UTC),a\nR0,1\n")).1.1.rollover_count = 1)
    ∧ ((collect "d" "T1" "R1" (Except.ok [["a", "1"]])
        (init_settings "s" 1 3) emptyFS).1.1.rollover_count = 0)
    ∧ ((collect "d" "T1" "R1" (Except.ok [["a", "1"]])
        (init_settings "s" 1 3) emptyFS).1.2 "d/T1_ccs_data_logger.csv"
        = some "Timestamp (UTC),a\nR1,1\n") := by
  refine ⟨rfl, rfl, by decide⟩

/-- Claim C3, corrected.  The file path of a rotation is derived from the
data directory, the UTC timestamp formatted to second precision and the
fixed suffix only: the label of the source appears nowhere in
get_collect_file_path (it takes no source argument at all).  Rotations at
distinct timestamps do give distinct paths, but two distinct sources that
rotate within the same formatted second receive the same path and share
the file. -/
theorem claim_C3 (csv_dir t1 t2 : String) (hne : t1 ≠ t2) :
    (∀ path_ts : String, get_collect_file_path csv_dir path_ts
        = csv_dir ++ "/" ++ (path_ts ++ COLLECT_SUFFIX)) ∧
    get_collect_file_path csv_dir t1 ≠ get_collect_file_path csv_dir t2 :=
  ⟨fun _ => rfl, fun hcontra => hne (get_collect_file_path_inj csv_dir hcontra)⟩

/-- Witness for claim_C3 with two concrete distinct timestamps. -/
theorem claim_C3_witness :
    (∀ path_ts : String, get_collect_file_path "d" path_ts
        = "d" ++ "/" ++ (path_ts ++ COLLECT_SUFFIX)) ∧
    get_collect_file_path "d" "20250101_120000"
      ≠ get_collect_file_path "d" "20250101_120100" :=
  claim_C3 "d" "20250101_120000" "20250101_120100" (by decide)

/-- Counterexample to claim C3 as stated: one tick in which two distinct
bound sources both rotate during the same formatted second leaves both
descriptors with the SAME active file path (which also contains no label),
where the claim asserts the paths of distinct sources are always
distinct. -/
theorem claim_C3_counterexample :
    (tick_go "d"
      [ { sensor_name := "s1", label := "s1", path_ts := "20250101_120000",
          row_ts := "R1", sample := Except.ok [["a", "1"]] },
        { sensor_name := "s2", label := "s2", path_ts := "20250101_120000",
          row_ts := "R2", sample := Except.ok [["b", "2"]] } ]
      { sensor_settings :=
          [ { name := "s1", ticks := 1, period := 1, rollover_max := 48,
              rollover_count := 0, path := none },
            { name := "s2", ticks := 1, period := 1, rollover_max := 48,
              rollover_count := 0, path := none } ],
        fs := emptyFS, first_time := false, events := [] }).1.sensor_settings.map
        (fun ss => ss.path)
      = [some "d/20250101_120000_ccs_data_logger.csv",
         some "d/20250101_120000_ccs_data_logger.csv"] := by
  decide

/-- Claim C1 is violated by the code (code_bug).  Neither CcsLogger.collect
nor the RUN loop of run contains any exception handler, so a raising
sample aborts the whole tick at once: with two bound sources both due, the
first raising, the error escapes run_ticks uncaught (nothing is logged),
the second source is not collected in that tick, and no subsequent tick
runs, so it is not collected later either: its path is still unset after a
two-tick schedule, and the only mutated descriptor is the first one. -/
theorem claim_C1 :
    ((run_ticks "d"
      [ [ { sensor_name := "s1", label := "s1", path_ts := "T1",
            row_ts := "R1", sample := Except.error "boom" },
          { sensor_name := "s2", label := "s2", path_ts := "T1",
            row_ts := "R1", sample := Except.ok [["a", "1"]] } ],
        [ { sensor_name := "s1", label := "s1", path_ts := "T2",
            row_ts := "R2", sample := Except.error "boom" },
          { sensor_name := "s2", label := "s2", path_ts := "T2",
            row_ts := "R2", sample := Except.ok [["a", "1"]] } ] ]
      { sensor_settings :=
          [ { name := "s1", ticks := 1, period := 1, rollover_max := 48,
              rollover_count := 0, path := none },
            { name := "s2", ticks := 1, period := 1, rollover_max := 48,
              rollover_count := 0, path := none } ],
        fs := emptyFS, first_time := false, events := [] }).2
      = Except.error (PyError.sampleError "boom"))
    ∧ ((run_ticks "d"
      [ [ { sensor_name := "s1", label := "s1", path_ts := "T1",
            row_ts := "R1", sample := Except.error "boom" },
          { sensor_name := "s2", label := "s2", path_ts := "T1",
            row_ts := "R1", sample := Except.ok [["a", "1"]] } ],
        [ { sensor_name := "s1", label := "s1", path_ts := "T2",
            row_ts := "R2", sample := Except.error "boom" },
          { sensor_name := "s2", label := "s2", path_ts := "T2",
            row_ts := "R2", sample := Except.ok [["a", "1"]] } ] ]
      { sensor_settings :=
          [ { name := "s1", ticks := 1, period := 1, rollover_max := 48,
              rollover_count := 0, path := none },
            { name := "s2", ticks := 1, period := 1, rollover_max := 48,
              rollover_count := 0, path := none } ],
        fs := emptyFS, first_time := false, events := [] }).1.sensor_settings.map
        (fun ss => (ss.path, ss.ticks))
      = [(some "d/T1_ccs_data_logger.csv", 1), (none, 1)])
    ∧ ((run_ticks "d"
      [ [ { sensor_name := "s1", label := "s1", path_ts := "T1",
            row_ts := "R1", sample := Except.error "boom" },
          { sensor_name := "s2", label := "s2", path_ts := "T1",
            row_ts := "R1", sample := Except.ok [["a", "1"]] } ],
        [ { sensor_name := "s1", label := "s1", path_ts := "T2",
            row_ts := "R2", sample := Except.error "boom" },
          { sensor_name := "s2", label := "s2", path_ts := "T2",
            row_ts := "R2", sample := Except.ok [["a", "1"]] } ] ]
      { sensor_settings :=
          [ { name := "s1", ticks := 1, period := 1, rollover_max := 48,
              rollover_count := 0, path := none },
            { name := "s2", ticks := 1, period := 1, rollover_max := 48,
              rollover_count := 0, path := none } ],
        fs := emptyFS, first_time := false, events := [] }).1.events = []) := by
  refine ⟨rfl, by decide, rfl⟩

/-- Claim C4 is violated by the code (code_bug).  The first_time flag is
cleared INSIDE the per-sensor loop, right after the first sensor with
settings is processed, so on the very first tick only that first source is
collected unconditionally; every later source falls back to the
ticks-versus-period test, which cannot pass on tick one for a period of
two or more.  Here both sources have period 2 and fresh counters: after
the first tick the first descriptor has an active file, the second still
has none, and the tick finished without error. -/
theorem claim_C4 :
    ((tick_go "d"
      [ { sensor_name := "s1", label := "s1", path_ts := "T1",
          row_ts := "R1", sample := Except.ok [["a", "1"]] },
        { sensor_name := "s2", label := "s2", path_ts := "T1",
          row_ts := "R1", sample := Except.ok [["b", "2"]] } ]
      { sensor_settings := [init_settings "s1" 2 48, init_settings "s2" 2 48],
        fs := emptyFS, first_time := true, events := [] }).1.sensor_settings.map
        (fun ss => (ss.path.isSome, ss.ticks))
      = [(true, 1), (false, 1)])
    ∧ ((tick_go "d"
      [ { sensor_name := "s1", label := "s1", path_ts := "T1",
          row_ts := "R1", sample := Except.ok [["a", "1"]] },
        { sensor_name := "s2", label := "s2", path_ts := "T1",
          row_ts := "R1", sample := Except.ok [["b", "2"]] } ]
      { sensor_settings := [init_settings "s1" 2 48, init_settings "s2" 2 48],
        fs := emptyFS, first_time := true, events := [] }).2 = Except.ok ()) := by
  refine ⟨by decide, rfl⟩

/-- Claim C8 is violated by the code (code_bug).  The guard of logmsg is
(level is info AND info counter within cap) OR (error counter within cap),
so informational messages keep being written as long as the ERROR counter
is within its cap: 22 consecutive informational messages produce 22
message lines plus the one sentinel (23 write calls), where the claimed
behavior allows at most 20 lines plus one sentinel before suppression.
The error class does stop: the cap test uses a non-strict comparison, so
21 error lines are written (counts 0 through 20), the sentinel accompanies
the 21st, and later error messages are suppressed; the claimed cap is 20.
The counters themselves sit at 22 written info messages and 21 written
error messages respectively. -/
theorem claim_C8 :
    ((logmsg_iter "t " "x" "m" 0 22 init_sink).chunks.length = 23)
    ∧ ((logmsg_iter "t " "x" "m" 0 22 init_sink).info_count = 22)
    ∧ ((logmsg_iter "t " "x" "m" 1 25 init_sink).chunks.length = 22)
    ∧ ((logmsg_iter "t " "x" "m" 1 25 init_sink).error_count = 21)
    ∧ MAX_REPORTED_INFO_MSGS = 20 ∧ MAX_REPORTED_ERRORS = 20 := by
  refine ⟨by decide, by decide, by decide, by decide, rfl, rfl⟩

/-- Claim C9, confirmed.  With a pisugar2 power manager configured and the
device unreachable at startup (either connection exception), run takes the
browse branch: it logs exactly one power-device error, sets g_done, and
returns before the collection machinery is built, so no sensor is
collected and the tick loop is never entered; the relaunch loop at module
level then stops because g_done is set, and the process terminates
normally with exit code 0. -/
theorem claim_C9 (cfg : GConfig) (probe : ProbeOutcome)
    (hpm : cfg.power_manager = some PM_PISUGAR2)
    (hprobe : probe = ProbeOutcome.connectionRefused
      ∨ probe = ProbeOutcome.sugarDisconnected) :
    (∃ evs, run_power_phase cfg probe = RunResult.browse_exit evs) ∧
    g_done_after (run_power_phase cfg probe) = true ∧
    process_exit (run_power_phase cfg probe) = some 0 ∧
    (run_events (run_power_phase cfg probe)).countP is_power_device_error = 1 := by
  obtain ⟨pm, pp⟩ := cfg
  simp only [GConfig.power_manager] at hpm
  subst hpm
  rcases hprobe with h | h <;> subst h <;>
    rcases pp with _ | pp <;>
      simp [run_power_phase, get_pisugar2_manager, g_done_after, process_exit,
        run_events, is_power_device_error, List.countP_append, List.countP_cons]

/-- Witness for claim_C9 at a concrete configuration: pisugar2 configured
with a power period, device probe refused. -/
theorem claim_C9_witness :
    (∃ evs, run_power_phase { power_manager := some PM_PISUGAR2, power_period := some 5 }
        ProbeOutcome.connectionRefused = RunResult.browse_exit evs) ∧
    g_done_after (run_power_phase { power_manager := some PM_PISUGAR2, power_period := some 5 }
        ProbeOutcome.connectionRefused) = true ∧
    process_exit (run_power_phase { power_manager := some PM_PISUGAR2, power_period := some 5 }
        ProbeOutcome.connectionRefused) = some 0 ∧
    (run_events (run_power_phase { power_manager := some PM_PISUGAR2, power_period := some 5 }
        ProbeOutcome.connectionRefused)).countP is_power_device_error = 1 :=
  claim_C9 { power_manager := some PM_PISUGAR2, power_period := some 5 }
    ProbeOutcome.connectionRefused rfl (Or.inl rfl)

end CcsDataLogger

